import Mathlib

/-!
Shallow embedding of `app.py` (B2BCTP contract platform, a Streamlit
single-file application) and verification of its specification claims.

Modelling conventions:
* Python strings are `String`, Python ints are `Int`.
* The only operations the program performs on the float values it handles
  (the `price` form input) are the truthiness test `not value` and
  interpolation via `str()`; a float is therefore modelled by its shortest
  decimal representation: a nonnegative integer part (the widget enforces
  `min_value=0.0`) and the normalized list of fraction digits, where the
  empty list denotes `.0`.
* `st.session_state` is an explicit record threaded through the handlers.
* Python dicts are insertion-ordered association lists; assignment replaces
  an existing key in place and appends a fresh one.
* Each Streamlit handler becomes a pure function from the session state and
  the widget events of one script run to the next state plus the messages
  rendered; `st.rerun()` aborts the run, so code after it is not modelled
  in the same run.
* The external libraries (PyPDF2, python-docx, UTF-8 decoding, the OpenAI
  client) are opaque: their outcome on the uploaded bytes is part of the
  input record.
-/

/-- A Python float as the program uses it (rendering and truthiness only):
integer part and normalized fraction digits; `frac = []` renders as `.0`. -/
structure PyFloat where
  intPart : Nat
  frac : List Nat
deriving DecidableEq, Repr

/-- Decimal rendering of a `PyFloat`, matching Python `str()` on the floats
the program handles: `str(5.0) = "5.0"`, `str(5.25) = "5.25"`. -/
def PyFloat.render (f : PyFloat) : String :=
  toString f.intPart ++ "." ++
    (if f.frac.isEmpty then "0" else String.join (f.frac.map toString))

/-- The values stored in `st.session_state.contract_data`. -/
inductive PVal where
  | vStr (s : String)
  | vInt (n : Int)
  | vFloat (f : PyFloat)
deriving DecidableEq, Repr

/-- Python truthiness for the values at hand: a string is truthy iff
non-empty, an int iff non-zero, a float iff non-zero. -/
def PVal.truthy : PVal → Bool
  | .vStr s => !s.isEmpty
  | .vInt n => n != 0
  | .vFloat f => !(f.intPart == 0 && f.frac.isEmpty)

/-- Python `str()` of a stored value, as interpolated by f-strings. -/
def PVal.render : PVal → String
  | .vStr s => s
  | .vInt n => toString n
  | .vFloat f => f.render

/-- An insertion-ordered Python dict with `String` keys. -/
abbrev PyDict := List (String × PVal)

/-- Python `d.get(k)` (no default): `none` models Python `None`. -/
def dictGet (d : PyDict) (k : String) : Option PVal :=
  (d.find? (fun p => p.1 == k)).map (·.2)

/-- Python `d[k] = v`: replace in place when the key exists, else append. -/
def dictSet (d : PyDict) (k : String) (v : PVal) : PyDict :=
  if d.any (fun p => p.1 == k) then
    d.map (fun p => if p.1 == k then (k, v) else p)
  else
    d ++ [(k, v)]

/-- Python `d.update(other)` for an ordered list of key/value pairs. -/
def dictUpdate (d : PyDict) (other : List (String × PVal)) : PyDict :=
  other.foldl (fun acc kv => dictSet acc kv.1 kv.2) d

/-- f-string interpolation of a `.get` result: Python renders `None` for a
missing key. -/
def renderOpt : Option PVal → String
  | none => "None"
  | some v => v.render

/-- `st.session_state` as initialized by `ContractPlatform.__init__`:
`step` is a Python string, `contract_data` a dict, `processing_status`
is set to `None` and never consulted again. -/
structure SessionState where
  step : String
  contract_data : PyDict
  processing_status : Option String
deriving DecidableEq, Repr

/-- Session state of a fresh session after `ContractPlatform.__init__`. -/
def initState : SessionState :=
  { step := "home", contract_data := [], processing_status := none }

/-! ## Document text extraction (`app.py` lines 53-92) -/

/-- `extract_text_from_pdf`: the argument models the outcome of the external
`PdfReader` parse — `some pages` is the per-page `extract_text()` results,
`none` a parse exception. The loop appends each page's text plus `"\n"`;
a parse failure is re-raised with a fixed message (`Except.error` models the
raised exception's `str`). -/
def extract_text_from_pdf (parsed : Option (List String)) : Except String String :=
  match parsed with
  | some pages => .ok (pages.foldl (fun text p => text ++ p ++ "\n") "")
  | none => .error "Failed to process PDF file. Please ensure the file is not corrupted."

/-- `extract_text_from_docx`: the argument models the external `python-docx`
parse — `some paras` is the paragraph texts, `none` a parse exception.
The paragraph texts are joined by `"\n".join(...)`. -/
def extract_text_from_docx (parsed : Option (List String)) : Except String String :=
  match parsed with
  | some paras => .ok (String.intercalate "\n" paras)
  | none => .error "Failed to process DOCX file. Please ensure the file is not corrupted."

/-- An uploaded file: its declared MIME type plus the outcomes of the three
external decoders on its bytes (each claim only consults the one its MIME
type selects). For `utf8`, `Except.error msg` models a `UnicodeDecodeError`
whose `str` is `msg`. -/
structure UploadedFile where
  mime : String
  pdfPages : Option (List String)
  docxParas : Option (List String)
  utf8 : Except String String
deriving Repr

/-- `process_uploaded_file`: dispatch on the MIME type; any exception from
the branches (including the `ValueError` for an unsupported type) is caught
and surfaced via `st.error`, returning `None`. Result: the returned
`Optional[str]` and the list of `st.error` messages shown. -/
def process_uploaded_file (f : UploadedFile) : Option String × List String :=
  let attempt : Except String String :=
    if f.mime == "application/pdf" then
      extract_text_from_pdf f.pdfPages
    else if f.mime == "application/msword" ||
        f.mime == "application/vnd.openxmlformats-officedocument.wordprocessingml.document" then
      extract_text_from_docx f.docxParas
    else if f.mime == "text/plain" then
      f.utf8
    else
      .error ("Unsupported file type: " ++ f.mime)
  match attempt with
  | .ok text => (some text, [])
  | .error msg => (none, ["Error processing file: " ++ msg])

/-! ## Upload handler (`app.py` lines 107-141) -/

/-- Widget events of one run of `upload_documents`: whether the back button
was clicked, the file in the uploader (if any), and whether the
"Continue to Application Form" button was clicked. -/
structure UploadInput where
  backClicked : Bool
  file : Option UploadedFile
  continueClicked : Bool
deriving Repr

/-- What one run of `upload_documents` produced: the next session state, the
`st.error` messages, whether the success message was shown, and the preview
text placed in the expander's text area (if one was rendered). -/
structure UploadRender where
  state : SessionState
  errors : List String
  successShown : Bool
  preview : Option String
deriving Repr

/-- `upload_documents`: back button first (it sets `step` to `'home'` and
`st.rerun()` aborts the run); otherwise, when a file is present, extract its
text; a truthy (non-empty) result is stored under `'extracted_text'`, the
success message and the preview (truncated via `extracted_text[:1000] + "..."`
when longer than 1000 characters) are shown, and the continue button sets
`step` to `'form'`. -/
def upload_documents (s : SessionState) (inp : UploadInput) : UploadRender :=
  if inp.backClicked then
    { state := { s with step := "home" }, errors := [], successShown := false,
      preview := none }
  else
    match inp.file with
    | none => { state := s, errors := [], successShown := false, preview := none }
    | some f =>
      match process_uploaded_file f with
      | (some text, errs) =>
        if !text.isEmpty then
          let s' := { s with
            contract_data := dictSet s.contract_data "extracted_text" (.vStr text) }
          let prev := if text.length > 1000 then text.take 1000 ++ "..." else text
          if inp.continueClicked then
            { state := { s' with step := "form" }, errors := errs,
              successShown := true, preview := some prev }
          else
            { state := s', errors := errs, successShown := true, preview := some prev }
        else
          { state := s, errors := errs, successShown := false, preview := none }
      | (none, errs) =>
        { state := s, errors := errs, successShown := false, preview := none }

/-! ## Application form handler (`app.py` lines 143-242) -/

/-- Widget values of one run of `application_form`: the back button, the
form's field values, and whether the form was submitted. `quantity` comes
from an integer `st.number_input` and `price` from a float one. -/
structure FormInput where
  backClicked : Bool
  submitted : Bool
  party1 : String
  party2 : String
  commodity : String
  quantity : Int
  price : PyFloat
  currency : String
  template : String
deriving Repr

/-- The `required_fields` dict: field name to human-readable label. -/
def required_fields : List (String × String) :=
  [("party1", "Party 1 Name"),
   ("party2", "Party 2 Name"),
   ("commodity", "Commodity Description"),
   ("quantity", "Quantity"),
   ("price", "Price per unit")]

/-- The `form_data` dict built on submit, in source order. -/
def form_data_of (inp : FormInput) : List (String × PVal) :=
  [("party1", .vStr inp.party1),
   ("party2", .vStr inp.party2),
   ("commodity", .vStr inp.commodity),
   ("quantity", .vInt inp.quantity),
   ("price", .vFloat inp.price),
   ("currency", .vStr inp.currency),
   ("template", .vStr inp.template)]

/-- `missing_fields`: the keys of `form_data` that are required and falsy. -/
def missing_fields_of (inp : FormInput) : List String :=
  ((form_data_of inp).filter
    (fun kv => required_fields.any (fun rf => rf.1 == kv.1) && !kv.2.truthy)).map (·.1)

/-- `application_form`: back button first (`step := 'home'`, rerun); on
submit, if some required field is falsy show the error listing the missing
labels and do not advance; otherwise merge `form_data` into `contract_data`
and set `step` to `'generate'`. Result: next state and `st.error` messages. -/
def application_form (s : SessionState) (inp : FormInput) :
    SessionState × List String :=
  if inp.backClicked then
    ({ s with step := "home" }, [])
  else if inp.submitted then
    let missing := missing_fields_of inp
    if missing.isEmpty then
      ({ s with contract_data := dictUpdate s.contract_data (form_data_of inp),
                step := "generate" }, [])
    else
      (s, ["Please fill in all required fields: " ++
        String.intercalate ", "
          (missing.map (fun f => ((required_fields.find? (fun rf => rf.1 == f)).map
            (·.2)).getD ""))])
  else
    (s, [])

/-! ## Contract generation handler (`app.py` lines 244-310) -/

/-- The sixteen spaces of indentation inside the prompt's triple-quoted
f-string. -/
def promptIndent : String := "                "

/-- The prompt f-string of `generate_contract`, lines 256-271, transcribed
with its exact leading newline, per-line indentation, indented blank lines,
and trailing indented final line. -/
def buildPrompt (cd : PyDict) : String :=
  "\n" ++
  promptIndent ++ "Generate a legal contract based on the following information:\n" ++
  promptIndent ++ "\n" ++
  promptIndent ++ "PARTIES:\n" ++
  promptIndent ++ "- Party 1: " ++ renderOpt (dictGet cd "party1") ++ "\n" ++
  promptIndent ++ "- Party 2: " ++ renderOpt (dictGet cd "party2") ++ "\n" ++
  promptIndent ++ "\n" ++
  promptIndent ++ "TERMS:\n" ++
  promptIndent ++ "- Commodity: " ++ renderOpt (dictGet cd "commodity") ++ "\n" ++
  promptIndent ++ "- Quantity: " ++ renderOpt (dictGet cd "quantity") ++ "\n" ++
  promptIndent ++ "- Price: " ++ renderOpt (dictGet cd "price") ++ " " ++
    renderOpt (dictGet cd "currency") ++ " per unit\n" ++
  promptIndent ++ "- Template Style: " ++ renderOpt (dictGet cd "template") ++ "\n" ++
  promptIndent ++ "\n" ++
  promptIndent ++ "Please generate a complete, professionally formatted, and legally binding contract.\n" ++
  promptIndent ++ "Include standard clauses for dispute resolution, termination, and force majeure.\n" ++
  promptIndent

/-- An OpenAI-style client object: `complete prompt` models the whole of
`client.chat.completions.create(...)` followed by
`response.choices[0].message.content` — `Except.error` is any exception
raised by the call or the response access. -/
structure ApiClient where
  complete : String → Except String String

/-- The module-level binding of the name `client` in `app.py`. Line 21 sets
`openai.api_key`, but no statement in the file ever binds `client`, so the
name is unbound: evaluating it raises `NameError`. We model the binding as
`none`. -/
def app_client : Option ApiClient := none

/-- The generic error message of `generate_contract`'s `except` branch. -/
def genericGenError : String :=
  "An error occurred while generating the contract. Please try again or contact support."

/-- What one run of `generate_contract` produced: next state, the contract
text displayed in the text area (if the success path was reached), whether
the TXT download button was offered, and the `st.error` messages. -/
structure GenRender where
  state : SessionState
  contractShown : Option String
  downloadOffered : Bool
  errors : List String

/-- `generate_contract`: back button first (`step := 'form'`, rerun); then a
`try` block builds the prompt and evaluates `client.chat.completions...` —
since evaluating an unbound `client` raises `NameError` and any API failure
raises too, the `except Exception` branch logs and shows the generic error.
On success the stripped contract text is displayed with a download button. -/
def generate_contract (clientBinding : Option ApiClient) (s : SessionState)
    (backClicked : Bool) : GenRender :=
  if backClicked then
    { state := { s with step := "form" }, contractShown := none,
      downloadOffered := false, errors := [] }
  else
    let prompt := buildPrompt s.contract_data
    match clientBinding with
    | none =>
      { state := s, contractShown := none, downloadOffered := false,
        errors := [genericGenError] }
    | some client =>
      match client.complete prompt with
      | .ok content =>
        let contract_text := content.trim
        { state := s, contractShown := some contract_text,
          downloadOffered := true, errors := [] }
      | .error _ =>
        { state := s, contractShown := none, downloadOffered := false,
          errors := [genericGenError] }

/-! ## Home page and main routing (`app.py` lines 94-105, 312-334) -/

/-- `home`: the two navigation buttons, executed in source order. -/
def home_page (s : SessionState) (uploadClicked formClicked : Bool) : SessionState :=
  let s1 := if uploadClicked then { s with step := "upload" } else s
  if formClicked then { s1 with step := "form" } else s1

/-- The widget events of one script run, for whichever page is routed to. -/
structure Interaction where
  homeUploadClicked : Bool
  homeFormClicked : Bool
  upload : UploadInput
  form : FormInput
  genBackClicked : Bool

/-- `main`'s routing: dispatch on `st.session_state.step` to the page
handler; an unrecognized step renders nothing. Returns the next state. -/
def dispatch (clientBinding : Option ApiClient) (s : SessionState)
    (i : Interaction) : SessionState :=
  if s.step == "home" then
    home_page s i.homeUploadClicked i.homeFormClicked
  else if s.step == "upload" then
    (upload_documents s i.upload).state
  else if s.step == "form" then
    (application_form s i.form).1
  else if s.step == "generate" then
    (generate_contract clientBinding s i.genBackClicked).state
  else
    s

/-! ## Auxiliary definitions for stating the claims -/

/-- Substring scan over character lists: `charsContain pat l` is true iff
`pat` occurs contiguously in `l`. -/
def charsContain (pat : List Char) : List Char → Bool
  | [] => pat.isEmpty
  | c :: cs => pat.isPrefixOf (c :: cs) || charsContain pat cs

/-- `strContains s pat`: `pat` is a contiguous substring of `s`. -/
def strContains (s pat : String) : Bool := charsContain pat.data s.data

/-- Modelled from the spec's words (for comparison with
`extract_text_from_pdf`): "concatenate per-page extracted text with newline
separators", i.e. a separator join of the page texts. -/
def pdf_join_spec (pages : List String) : String :=
  String.intercalate "\n" pages

/-- Modelled from the claim's words (for comparison with the message built
by `application_form`): the human-readable labels of exactly the required
fields whose submitted value is falsy, in the form's field order. -/
def specMissingLabels (inp : FormInput) : List String :=
  (if (PVal.vStr inp.party1).truthy then [] else ["Party 1 Name"]) ++
  (if (PVal.vStr inp.party2).truthy then [] else ["Party 2 Name"]) ++
  (if (PVal.vStr inp.commodity).truthy then [] else ["Commodity Description"]) ++
  (if (PVal.vInt inp.quantity).truthy then [] else ["Quantity"]) ++
  (if (PVal.vFloat inp.price).truthy then [] else ["Price per unit"])

/-- A 1001-character extracted text, used to exercise the preview
truncation branch. -/
def longText : String := String.mk (List.replicate 1001 'a')

/-- A plain-text upload whose bytes decode to `longText`. -/
def longTextFile : UploadedFile :=
  { mime := "text/plain", pdfPages := none, docxParas := none,
    utf8 := .ok longText }

/-- The `contract_data` of the spec's §8 prompt example: `party1="Acme"`,
`party2="Globex"`, `commodity="Wheat"`, `quantity=100`, `price=5.0`. -/
def exampleContractData : PyDict :=
  [("party1", .vStr "Acme"),
   ("party2", .vStr "Globex"),
   ("commodity", .vStr "Wheat"),
   ("quantity", .vInt 100),
   ("price", .vFloat ⟨5, []⟩)]

/-! ## Shared lemmas -/

theorem find?_setMap_self (d : PyDict) (k : String) (v : PVal)
    (h : d.any (fun p => p.1 == k) = true) :
    (d.map (fun p => if p.1 == k then (k, v) else p)).find? (fun p => p.1 == k)
      = some (k, v) := by
  induction d with
  | nil => simp at h
  | cons a d ih =>
    rw [List.map_cons]
    cases ha : (a.1 == k) with
    | true =>
      rw [if_pos rfl]
      exact List.find?_cons_of_pos (p := fun q : String × PVal => q.1 == k) _ (by simp)
    | false =>
      rw [if_neg (by simp),
        List.find?_cons_of_neg (p := fun q : String × PVal => q.1 == k) _ (by simp [ha])]
      simp only [List.any_cons, ha, Bool.false_or] at h
      exact ih h

theorem find?_setMap_ne (d : PyDict) (k k' : String) (v : PVal)
    (h : (k' == k) = false) :
    (d.map (fun p => if p.1 == k then (k, v) else p)).find? (fun p => p.1 == k')
      = d.find? (fun p => p.1 == k') := by
  induction d with
  | nil => rfl
  | cons a d ih =>
    rw [List.map_cons]
    cases ha : (a.1 == k) with
    | true =>
      have hk : (k == k') = false := by
        simp only [beq_eq_false_iff_ne] at h ⊢
        exact fun hc => h hc.symm
      have ha' : (a.1 == k') = false := by
        have hak : a.1 = k := by simpa using ha
        rw [hak]; exact hk
      rw [if_pos rfl,
        List.find?_cons_of_neg (p := fun q : String × PVal => q.1 == k') _ (by simp [hk]),
        List.find?_cons_of_neg (p := fun q : String × PVal => q.1 == k') _ (by simp [ha']), ih]
    | false =>
      rw [if_neg (by simp)]
      cases hak : (a.1 == k') with
      | true =>
        rw [List.find?_cons_of_pos (p := fun q : String × PVal => q.1 == k') _ (by simp [hak]),
          List.find?_cons_of_pos (p := fun q : String × PVal => q.1 == k') _ (by simp [hak])]
      | false =>
        rw [List.find?_cons_of_neg (p := fun q : String × PVal => q.1 == k') _ (by simp [hak]),
          List.find?_cons_of_neg (p := fun q : String × PVal => q.1 == k') _ (by simp [hak]), ih]

theorem dictGet_dictSet_self (d : PyDict) (k : String) (v : PVal) :
    dictGet (dictSet d k v) k = some v := by
  unfold dictGet dictSet
  cases hany : d.any (fun p => p.1 == k) with
  | true =>
    simp only [hany, if_true]
    rw [find?_setMap_self d k v hany]
    rfl
  | false =>
    simp only [hany, Bool.false_eq_true, if_false]
    have hnone : d.find? (fun p => p.1 == k) = none :=
      List.find?_eq_none.mpr (by simpa [List.any_eq_false] using hany)
    have hone : List.find? (fun q : String × PVal => q.1 == k) [(k, v)] = some (k, v) :=
      List.find?_cons_of_pos (p := fun q : String × PVal => q.1 == k) _ (by simp)
    rw [List.find?_append, hnone, hone]
    rfl

theorem dictGet_dictSet_ne (d : PyDict) (k k' : String) (v : PVal)
    (h : (k' == k) = false) :
    dictGet (dictSet d k v) k' = dictGet d k' := by
  unfold dictGet dictSet
  cases hany : d.any (fun p => p.1 == k) with
  | true =>
    simp only [hany, if_true]
    rw [find?_setMap_ne d k k' v h]
  | false =>
    simp only [hany, Bool.false_eq_true, if_false]
    have hk : (k == k') = false := by
      simp only [beq_eq_false_iff_ne] at h ⊢
      exact fun hc => h hc.symm
    have hone : List.find? (fun q : String × PVal => q.1 == k') [(k, v)] = none := by
      rw [List.find?_cons_of_neg (p := fun q : String × PVal => q.1 == k') _ (by simp [hk])]
      rfl
    rw [List.find?_append, hone]
    cases d.find? (fun q : String × PVal => q.1 == k') <;> rfl

theorem pdfFold_acc (l : List String) (acc : String) :
    l.foldl (fun t p => t ++ p ++ "\n") acc = acc ++ l.foldl (fun t p => t ++ p ++ "\n") "" := by
  induction l generalizing acc with
  | nil => simp
  | cons b l ih =>
    rw [List.foldl_cons, List.foldl_cons, ih (acc ++ b ++ "\n"), ih ("" ++ b ++ "\n")]
    simp [String.append_assoc]

theorem interGo_newline (l : List String) (a : String) :
    String.intercalate.go a "\n" l ++ "\n" = a ++ "\n" ++ l.foldl (fun t p => t ++ p ++ "\n") "" := by
  induction l generalizing a with
  | nil => simp [String.intercalate.go]
  | cons b l ih =>
    rw [show String.intercalate.go a "\n" (b :: l)
        = String.intercalate.go (a ++ "\n" ++ b) "\n" l from rfl,
      ih, List.foldl_cons, pdfFold_acc l ("" ++ b ++ "\n")]
    simp [String.append_assoc]

theorem pdf_fold_trailing (p : String) (l : List String) :
    (p :: l).foldl (fun t q => t ++ q ++ "\n") "" = String.intercalate "\n" (p :: l) ++ "\n" := by
  rw [show String.intercalate "\n" (p :: l) = String.intercalate.go p "\n" l from rfl,
    interGo_newline, List.foldl_cons, pdfFold_acc l ("" ++ p ++ "\n")]
  simp [String.append_assoc]

/-! ## Claim theorems -/

/-- Claim C3: with the module's (absent) `client` binding, every run of
`generate_contract` that attempts generation shows the generic error and
never displays a contract or offers the download; a back-click shows
neither a contract nor an error. The success path is unreachable. -/
theorem generate_always_errors (s : SessionState) (b : Bool) :
    (generate_contract app_client s b).contractShown = none ∧
    (generate_contract app_client s b).downloadOffered = false ∧
    (generate_contract app_client s b).errors =
      (if b then [] else [genericGenError]) ∧
    (generate_contract app_client s b).state.contract_data = s.contract_data := by
  cases b <;> simp [generate_contract, app_client]

/-- Claim C4 counterexample: the back button of the `generate` step sends
the session to `'form'`, not `'home'` as the claim states. -/
theorem back_from_generate_not_home :
    (generate_contract app_client
      { step := "generate", contract_data := [], processing_status := none }
      true).state.step ≠ "home" := by
  simp [generate_contract]

/-- Claim C4 amended: the back buttons of the `upload` and `form` steps set
the session step to `'home'`, while the back button of the `generate` step
sets it to `'form'`; in all three cases `contract_data` is unchanged. -/
theorem back_buttons_nav (s : SessionState) (c : Option ApiClient)
    (u : UploadInput) (f : FormInput)
    (hu : u.backClicked = true) (hf : f.backClicked = true) :
    ((upload_documents s u).state.step = "home" ∧
      (upload_documents s u).state.contract_data = s.contract_data) ∧
    ((application_form s f).1.step = "home" ∧
      (application_form s f).1.contract_data = s.contract_data) ∧
    ((generate_contract c s true).state.step = "form" ∧
      (generate_contract c s true).state.contract_data = s.contract_data) := by
  refine ⟨⟨?_, ?_⟩, ⟨?_, ?_⟩, ⟨?_, ?_⟩⟩ <;>
    simp [upload_documents, application_form, generate_contract, hu, hf]

/-- Witness for C4's amended theorem at a concrete state and inputs. -/
theorem back_buttons_nav_witness :
    ((upload_documents initState ⟨true, none, false⟩).state.step = "home" ∧
      (upload_documents initState ⟨true, none, false⟩).state.contract_data =
        initState.contract_data) ∧
    ((application_form initState
        ⟨true, false, "", "", "", 0, ⟨0, []⟩, "USD", "London"⟩).1.step = "home" ∧
      (application_form initState
        ⟨true, false, "", "", "", 0, ⟨0, []⟩, "USD", "London"⟩).1.contract_data =
        initState.contract_data) ∧
    ((generate_contract none initState true).state.step = "form" ∧
      (generate_contract none initState true).state.contract_data =
        initState.contract_data) :=
  back_buttons_nav initState none ⟨true, none, false⟩
    ⟨true, false, "", "", "", 0, ⟨0, []⟩, "USD", "London"⟩ rfl rfl

/-- Claim C6 counterexample: on a one-page PDF with page text `"a"` the code
returns `"a\n"` (a newline after every page), not the separator join `"a"`
the claim describes. -/
theorem pdf_join_cx :
    extract_text_from_pdf (some ["a"]) ≠ .ok (pdf_join_spec ["a"]) := by
  have h1 : extract_text_from_pdf (some ["a"]) = .ok "a\n" := rfl
  have h2 : pdf_join_spec ["a"] = "a" := rfl
  intro h
  rw [h1, h2] at h
  injection h with h3
  exact absurd h3 (by decide)

/-- Claim C6 amended: for a valid PDF the result is the per-page texts
joined by newlines with one further trailing newline (empty PDF: empty
string); for a valid DOCX the result is exactly the paragraph texts joined
by newline separators. -/
theorem extraction_joins (p : String) (pages paras : List String) :
    extract_text_from_pdf (some (p :: pages)) =
      .ok (String.intercalate "\n" (p :: pages) ++ "\n") ∧
    extract_text_from_pdf (some []) = .ok "" ∧
    extract_text_from_docx (some paras) = .ok (String.intercalate "\n" paras) := by
  refine ⟨?_, rfl, rfl⟩
  simp only [extract_text_from_pdf]
  exact congrArg Except.ok (pdf_fold_trailing p pages)

/-- Claim C7: a MIME type outside the four supported ones makes
`process_uploaded_file` return `None` with an error message naming the MIME
type, and the exception is caught inside the function. -/
theorem unsupported_mime_rejected (f : UploadedFile)
    (h : f.mime ∉ ["application/pdf", "application/msword",
      "application/vnd.openxmlformats-officedocument.wordprocessingml.document",
      "text/plain"]) :
    process_uploaded_file f =
      (none, ["Error processing file: Unsupported file type: " ++ f.mime]) := by
  simp only [List.mem_cons, List.not_mem_nil, or_false, not_or] at h
  obtain ⟨h1, h2, h3, h4⟩ := h
  simp only [process_uploaded_file, beq_iff_eq, h1, h2, h3, h4, if_false,
    Bool.or_eq_true, or_self, ite_false]
  rw [← String.append_assoc]
  rfl

/-- Witness for C7 at the MIME type `image/png`. -/
theorem unsupported_mime_rejected_witness :
    process_uploaded_file ⟨"image/png", none, none, .ok ""⟩ =
      (none, ["Error processing file: Unsupported file type: image/png"]) := by
  rw [unsupported_mime_rejected ⟨"image/png", none, none, .ok ""⟩ (by decide)]
  rfl

/-- Claim C8: whenever the generation attempt raises — the unbound `client`
name or a failing API call — `generate_contract` catches the exception,
shows only the generic message, and returns the session state unchanged
(so `step` stays `'generate'` and `contract_data` is untouched). -/
theorem generation_failure_contained (c : Option ApiClient) (s : SessionState)
    (hstep : s.step = "generate")
    (hexc : c = none ∨ ∃ cl e, c = some cl ∧
      cl.complete (buildPrompt s.contract_data) = .error e) :
    generate_contract c s false =
      { state := s, contractShown := none, downloadOffered := false,
        errors := [genericGenError] } ∧
    (generate_contract c s false).state.step = "generate" := by
  have hrun : generate_contract c s false =
      { state := s, contractShown := none, downloadOffered := false,
        errors := [genericGenError] } := by
    rcases hexc with h | ⟨cl, e, hc, herr⟩
    · subst h
      simp [generate_contract]
    · subst hc
      simp [generate_contract, herr]
  exact ⟨hrun, by rw [hrun]; exact hstep⟩

/-- Witness for C8: a client whose API call raises. -/
theorem generation_failure_contained_witness :
    generate_contract (some ⟨fun _ => .error "boom"⟩) ⟨"generate", [], none⟩ false =
      { state := ⟨"generate", [], none⟩, contractShown := none,
        downloadOffered := false, errors := [genericGenError] } :=
  (generation_failure_contained (some ⟨fun _ => .error "boom"⟩)
    ⟨"generate", [], none⟩ rfl (Or.inr ⟨_, "boom", rfl, rfl⟩)).1

/-- Claim C1: a submission with all five required fields truthy merges all
seven submitted values into `contract_data` (leaving every other key as it
was) and sets the step to `'generate'`, with no error shown. -/
theorem valid_form_advances (s : SessionState) (inp : FormInput)
    (hb : inp.backClicked = false) (hsub : inp.submitted = true)
    (h1 : (PVal.vStr inp.party1).truthy = true)
    (h2 : (PVal.vStr inp.party2).truthy = true)
    (h3 : (PVal.vStr inp.commodity).truthy = true)
    (h4 : (PVal.vInt inp.quantity).truthy = true)
    (h5 : (PVal.vFloat inp.price).truthy = true) :
    (application_form s inp).2 = [] ∧
    (application_form s inp).1.step = "generate" ∧
    dictGet (application_form s inp).1.contract_data "party1" = some (.vStr inp.party1) ∧
    dictGet (application_form s inp).1.contract_data "party2" = some (.vStr inp.party2) ∧
    dictGet (application_form s inp).1.contract_data "commodity" = some (.vStr inp.commodity) ∧
    dictGet (application_form s inp).1.contract_data "quantity" = some (.vInt inp.quantity) ∧
    dictGet (application_form s inp).1.contract_data "price" = some (.vFloat inp.price) ∧
    dictGet (application_form s inp).1.contract_data "currency" = some (.vStr inp.currency) ∧
    dictGet (application_form s inp).1.contract_data "template" = some (.vStr inp.template) ∧
    ∀ k, k ∉ ["party1", "party2", "commodity", "quantity", "price", "currency", "template"] →
      dictGet (application_form s inp).1.contract_data k = dictGet s.contract_data k := by
  have happ : application_form s inp =
      ({ s with
          contract_data := dictUpdate s.contract_data (form_data_of inp),
          step := "generate" }, []) := by
    simp [application_form, hb, hsub, missing_fields_of, form_data_of,
      required_fields, h1, h2, h3, h4, h5]
  rw [happ]
  simp only [dictUpdate, form_data_of, List.foldl_cons, List.foldl_nil]
  refine ⟨trivial, trivial, ?_, ?_, ?_, ?_, ?_, ?_, ?_, ?_⟩
  · rw [dictGet_dictSet_ne _ _ _ _ (by decide), dictGet_dictSet_ne _ _ _ _ (by decide),
      dictGet_dictSet_ne _ _ _ _ (by decide), dictGet_dictSet_ne _ _ _ _ (by decide),
      dictGet_dictSet_ne _ _ _ _ (by decide), dictGet_dictSet_ne _ _ _ _ (by decide),
      dictGet_dictSet_self]
  · rw [dictGet_dictSet_ne _ _ _ _ (by decide), dictGet_dictSet_ne _ _ _ _ (by decide),
      dictGet_dictSet_ne _ _ _ _ (by decide), dictGet_dictSet_ne _ _ _ _ (by decide),
      dictGet_dictSet_ne _ _ _ _ (by decide), dictGet_dictSet_self]
  · rw [dictGet_dictSet_ne _ _ _ _ (by decide), dictGet_dictSet_ne _ _ _ _ (by decide),
      dictGet_dictSet_ne _ _ _ _ (by decide), dictGet_dictSet_ne _ _ _ _ (by decide),
      dictGet_dictSet_self]
  · rw [dictGet_dictSet_ne _ _ _ _ (by decide), dictGet_dictSet_ne _ _ _ _ (by decide),
      dictGet_dictSet_ne _ _ _ _ (by decide), dictGet_dictSet_self]
  · rw [dictGet_dictSet_ne _ _ _ _ (by decide), dictGet_dictSet_ne _ _ _ _ (by decide),
      dictGet_dictSet_self]
  · rw [dictGet_dictSet_ne _ _ _ _ (by decide), dictGet_dictSet_self]
  · rw [dictGet_dictSet_self]
  · intro k hk
    simp only [List.mem_cons, List.not_mem_nil, or_false, not_or] at hk
    obtain ⟨hk1, hk2, hk3, hk4, hk5, hk6, hk7⟩ := hk
    rw [dictGet_dictSet_ne _ _ _ _ (beq_eq_false_iff_ne.mpr hk7),
      dictGet_dictSet_ne _ _ _ _ (beq_eq_false_iff_ne.mpr hk6),
      dictGet_dictSet_ne _ _ _ _ (beq_eq_false_iff_ne.mpr hk5),
      dictGet_dictSet_ne _ _ _ _ (beq_eq_false_iff_ne.mpr hk4),
      dictGet_dictSet_ne _ _ _ _ (beq_eq_false_iff_ne.mpr hk3),
      dictGet_dictSet_ne _ _ _ _ (beq_eq_false_iff_ne.mpr hk2),
      dictGet_dictSet_ne _ _ _ _ (beq_eq_false_iff_ne.mpr hk1)]

/-- Witness for C1 at the spec's example field values. -/
theorem valid_form_advances_witness :
    (application_form initState
      ⟨false, true, "Acme", "Globex", "Wheat", 100, ⟨5, []⟩, "USD", "London"⟩).1.step
      = "generate" :=
  (valid_form_advances initState
    ⟨false, true, "Acme", "Globex", "Wheat", 100, ⟨5, []⟩, "USD", "London"⟩
    rfl rfl (by decide) (by decide) (by decide) (by decide) (by decide)).2.1

/-- Claim C2: a submission with some required field falsy is rejected: the
single error message lists exactly the labels of the falsy required fields,
the state is returned unchanged, and the step stays `'form'`. -/
theorem invalid_form_rejected (s : SessionState) (inp : FormInput)
    (hb : inp.backClicked = false) (hsub : inp.submitted = true)
    (hs : s.step = "form")
    (hmiss : (PVal.vStr inp.party1).truthy = false ∨
      (PVal.vStr inp.party2).truthy = false ∨
      (PVal.vStr inp.commodity).truthy = false ∨
      (PVal.vInt inp.quantity).truthy = false ∨
      (PVal.vFloat inp.price).truthy = false) :
    application_form s inp =
      (s, ["Please fill in all required fields: " ++
        String.intercalate ", " (specMissingLabels inp)]) ∧
    (application_form s inp).1.step = "form" := by
  have key : application_form s inp =
      (s, ["Please fill in all required fields: " ++
        String.intercalate ", " (specMissingLabels inp)]) := by
    cases hp1 : (PVal.vStr inp.party1).truthy <;>
      cases hp2 : (PVal.vStr inp.party2).truthy <;>
        cases hp3 : (PVal.vStr inp.commodity).truthy <;>
          cases hp4 : (PVal.vInt inp.quantity).truthy <;>
            cases hp5 : (PVal.vFloat inp.price).truthy <;>
              simp_all [application_form, missing_fields_of, form_data_of,
                required_fields, specMissingLabels]
  exact ⟨key, by rw [key]; exact hs⟩

/-- Witness for C2: submitting the form with every field empty or zero. -/
theorem invalid_form_rejected_witness :
    application_form ⟨"form", [], none⟩
      ⟨false, true, "", "", "", 0, ⟨0, []⟩, "USD", "London"⟩ =
      (⟨"form", [], none⟩,
       ["Please fill in all required fields: Party 1 Name, Party 2 Name, Commodity Description, Quantity, Price per unit"]) := by
  rw [(invalid_form_rejected ⟨"form", [], none⟩
    ⟨false, true, "", "", "", 0, ⟨0, []⟩, "USD", "London"⟩
    rfl rfl rfl (Or.inl (by decide))).1]
  rfl

set_option maxRecDepth 8000

/-- Claim C5: with the spec's example field values, the prompt built by
`generate_contract` contains the five literal substrings about the parties,
commodity, quantity and price. -/
theorem prompt_contains_fields :
    strContains (buildPrompt exampleContractData) "Party 1: Acme" = true ∧
    strContains (buildPrompt exampleContractData) "Party 2: Globex" = true ∧
    strContains (buildPrompt exampleContractData) "Commodity: Wheat" = true ∧
    strContains (buildPrompt exampleContractData) "Quantity: 100" = true ∧
    strContains (buildPrompt exampleContractData) "Price: 5.0" = true := by
  decide

/-- The step after a run of `home` is the old one, `'upload'`, or `'form'`. -/
theorem home_page_step (s : SessionState) (u f : Bool) :
    (home_page s u f).step = s.step ∨ (home_page s u f).step = "upload" ∨
    (home_page s u f).step = "form" := by
  cases u <;> cases f <;> simp [home_page]

/-- The step after a run of `upload_documents` is the old one, `'home'`, or
`'form'`. -/
theorem upload_documents_step (s : SessionState) (inp : UploadInput) :
    (upload_documents s inp).state.step = s.step ∨
    (upload_documents s inp).state.step = "home" ∨
    (upload_documents s inp).state.step = "form" := by
  cases hb : inp.backClicked with
  | true => simp [upload_documents, hb]
  | false =>
    cases hf : inp.file with
    | none => simp [upload_documents, hb, hf]
    | some f =>
      rcases hp : process_uploaded_file f with ⟨o, errs⟩
      cases o with
      | none => simp [upload_documents, hb, hf, hp]
      | some text =>
        cases he : text.isEmpty with
        | true => simp [upload_documents, hb, hf, hp, he]
        | false =>
          cases hc : inp.continueClicked <;>
            simp [upload_documents, hb, hf, hp, he, hc]

/-- The step after a run of `application_form` is the old one, `'home'`, or
`'generate'`. -/
theorem application_form_step (s : SessionState) (inp : FormInput) :
    (application_form s inp).1.step = s.step ∨
    (application_form s inp).1.step = "home" ∨
    (application_form s inp).1.step = "generate" := by
  cases hb : inp.backClicked with
  | true => simp [application_form, hb]
  | false =>
    cases hsub : inp.submitted with
    | false => simp [application_form, hb, hsub]
    | true =>
      cases hm : (missing_fields_of inp).isEmpty <;>
        simp [application_form, hb, hsub, hm]

/-- The step after a run of `generate_contract` is the old one or `'form'`. -/
theorem generate_contract_step (c : Option ApiClient) (s : SessionState) (b : Bool) :
    (generate_contract c s b).state.step = s.step ∨
    (generate_contract c s b).state.step = "form" := by
  cases b with
  | true => simp [generate_contract]
  | false =>
    cases c with
    | none => simp [generate_contract]
    | some cl =>
      cases hr : cl.complete (buildPrompt s.contract_data) <;>
        simp [generate_contract, hr]

/-- Claim C9: the session step is `'home'` after initialization, and every
user action routed by `main` keeps it inside the four enumerated values. -/
theorem step_enum_invariant :
    initState.step ∈ ["home", "upload", "form", "generate"] ∧
    ∀ (c : Option ApiClient) (s : SessionState) (i : Interaction),
      s.step ∈ ["home", "upload", "form", "generate"] →
      (dispatch c s i).step ∈ ["home", "upload", "form", "generate"] := by
  refine ⟨by simp [initState], ?_⟩
  intro c s i hs
  simp only [List.mem_cons, List.not_mem_nil, or_false] at hs
  rcases hs with h | h | h | h
  · have hd : dispatch c s i = home_page s i.homeUploadClicked i.homeFormClicked := by
      simp [dispatch, h]
    rw [hd]
    rcases home_page_step s i.homeUploadClicked i.homeFormClicked with hh | hh | hh <;>
      simp [hh, h]
  · have hd : dispatch c s i = (upload_documents s i.upload).state := by
      simp [dispatch, h]
    rw [hd]
    rcases upload_documents_step s i.upload with hh | hh | hh <;> simp [hh, h]
  · have hd : dispatch c s i = (application_form s i.form).1 := by
      simp [dispatch, h]
    rw [hd]
    rcases application_form_step s i.form with hh | hh | hh <;> simp [hh, h]
  · have hd : dispatch c s i = (generate_contract c s i.genBackClicked).state := by
      simp [dispatch, h]
    rw [hd]
    rcases generate_contract_step c s i.genBackClicked with hh | hh <;> simp [hh, h]

/-- Witness for C9: one concrete dispatch from the initial state. -/
theorem step_enum_invariant_witness :
    (dispatch none initState
      ⟨true, false, ⟨false, none, false⟩,
       ⟨false, false, "", "", "", 0, ⟨0, []⟩, "USD", "London"⟩, false⟩).step ∈
      ["home", "upload", "form", "generate"] :=
  step_enum_invariant.2 none initState
    ⟨true, false, ⟨false, none, false⟩,
     ⟨false, false, "", "", "", 0, ⟨0, []⟩, "USD", "London"⟩, false⟩
    (by decide)

/-- For a file whose extraction returns non-empty text, the preview shown
by `upload_documents` is the text truncated at 1000 characters with an
ellipsis when longer, the text itself otherwise; the full text is stored
under `'extracted_text'` and the success message is shown. -/
theorem upload_preview_formula (s : SessionState) (f : UploadedFile)
    (text : String) (cont : Bool)
    (hproc : (process_uploaded_file f).1 = some text)
    (hne : text ≠ "") :
    (upload_documents s ⟨false, some f, cont⟩).preview =
      some (if text.length > 1000 then text.take 1000 ++ "..." else text) ∧
    dictGet (upload_documents s ⟨false, some f, cont⟩).state.contract_data
      "extracted_text" = some (.vStr text) ∧
    (upload_documents s ⟨false, some f, cont⟩).successShown = true := by
  have hempty : text.isEmpty = false := by
    cases h : text.isEmpty with
    | false => rfl
    | true => exact absurd ((String.isEmpty_iff _).mp h) hne
  rcases hq : process_uploaded_file f with ⟨o, errs⟩
  rw [hq] at hproc
  simp only at hproc
  subst hproc
  cases cont <;>
    simp [upload_documents, hq, hempty, dictGet_dictSet_self]

/-- The 1001-character sample text is longer than 1000 characters and
non-empty. -/
theorem longText_length : longText.length = 1001 ∧ longText ≠ "" := by
  have hlen : longText.length = 1001 := by simp [longText, String.length]
  refine ⟨hlen, ?_⟩
  intro hc
  rw [hc] at hlen
  simp [String.length] at hlen

/-- The sample upload's extraction succeeds and returns `longText`. -/
theorem longText_extraction :
    (process_uploaded_file longTextFile).1 = some longText := rfl

/-- The preview rendered for the sample upload, by the preview formula. -/
theorem longText_preview_if :
    (upload_documents ⟨"upload", [], none⟩ ⟨false, some longTextFile, false⟩).preview
      = some (if longText.length > 1000 then longText.take 1000 ++ "..." else longText) :=
  (upload_preview_formula ⟨"upload", [], none⟩ longTextFile longText
    false longText_extraction longText_length.2).1

/-- On the 1001-character text the truncation branch fires, so the preview
carries the appended ellipsis. -/
theorem longText_preview :
    (upload_documents ⟨"upload", [], none⟩ ⟨false, some longTextFile, false⟩).preview
      = some (longText.take 1000 ++ "...") := by
  rw [longText_preview_if, longText_length.1, if_pos (by norm_num)]

/-- Claim C10 counterexample: on a 1001-character extracted text the preview
is the first 1000 characters with `"..."` appended, not the bare
truncation to 1000 characters the claim states. -/
theorem preview_not_bare_truncation :
    (upload_documents ⟨"upload", [], none⟩ ⟨false, some longTextFile, false⟩).preview ≠
      some (longText.take 1000) := by
  rw [longText_preview]
  intro h
  have h2 : longText.take 1000 ++ "..." = longText.take 1000 := by
    simpa using h
  have h3 := congrArg String.length h2
  rw [String.length_append] at h3
  simp at h3
  exact absurd h3 (by decide)

/-- Claim C10 amended: after extraction returns a non-empty text, the
preview equals the text when it has at most 1000 characters and its first
1000 characters followed by `"..."` otherwise, the full untruncated text is
stored under `'extracted_text'`, and the success message is shown. -/
theorem preview_and_storage (s : SessionState) (f : UploadedFile)
    (text : String) (cont : Bool)
    (hproc : (process_uploaded_file f).1 = some text)
    (hne : text ≠ "") :
    (upload_documents s ⟨false, some f, cont⟩).preview =
      some (if text.length > 1000 then text.take 1000 ++ "..." else text) ∧
    dictGet (upload_documents s ⟨false, some f, cont⟩).state.contract_data
      "extracted_text" = some (.vStr text) ∧
    (upload_documents s ⟨false, some f, cont⟩).successShown = true :=
  upload_preview_formula s f text cont hproc hne

/-- Witness for C10's amended theorem: a short plain-text upload. -/
theorem preview_and_storage_witness :
    (upload_documents initState
      ⟨false, some ⟨"text/plain", none, none, .ok "hello"⟩, false⟩).preview =
      some "hello" := by
  rw [(preview_and_storage initState ⟨"text/plain", none, none, .ok "hello"⟩
    "hello" false rfl (by decide)).1]
  rfl
